import Mathlib

/-!
Verification development for the usi-map repository.

The repository is a set of browser scripts (several near-duplicate
variants of app.js plus calculator.js) that classify an Urban Stress
Index score into severity tiers, derive marker colors and radii,
resolve heterogeneous GeoJSON property keys, build popup text, and
compute an income/expense breakdown.

Modeling conventions:
  - JS values reaching the studied helpers are modeled by the inductive
    type JSVal (undefined, null, string, finite number).  Finite JS
    numbers are modeled as rationals; the decimal string literals that
    occur in the dataset and in the claims are exactly representable,
    and on those inputs exact rational arithmetic agrees with JS double
    arithmetic and with the shortest-round-trip printing used by
    String(number).
  - The JS builtins Number(), parseFloat(), String() are modeled by
    executable functions over decimal literals (optional sign, integer
    digits, optional fraction digits, surrounding whitespace); exotic
    forms (hex, exponent notation) are outside the modeled grammar and
    map to the not-a-number result, which the studied helpers fold into
    the same null outcome.
  - Records (GeoJSON property bags) are association lists from field
    names to JSVal; a missing key reads as undefined, as in JS.
-/

/-- A JavaScript value as seen by the helpers of this repository:
undefined, null, a string, or a finite number (modeled as a rational). -/
inductive JSVal where
  | undef : JSVal
  | null : JSVal
  | str : String → JSVal
  | num : ℚ → JSVal
deriving DecidableEq, Repr

/-- A GeoJSON property bag: an association list of field name to value. -/
abbrev JSRecord := List (String × JSVal)

/-- Property read obj[k]: the stored value when the key is present,
undefined otherwise. -/
def lookupJS (p : JSRecord) (k : String) : JSVal :=
  match p.lookup k with
  | some v => v
  | none => JSVal.undef

/-- JS truthiness for the modeled values: undefined, null, the empty
string and zero are falsy, everything else is truthy. -/
def jsTruthy : JSVal → Bool
  | JSVal.undef => false
  | JSVal.null => false
  | JSVal.str s => !(s = "")
  | JSVal.num q => !(q = 0)

/-- Numeric value of a decimal digit character. -/
def digitVal (c : Char) : ℕ := c.toNat - 48

/-- Value of a list of decimal digit characters, most significant first. -/
def digitsVal (cs : List Char) : ℕ :=
  cs.foldl (fun a c => 10 * a + digitVal c) 0

/-- Split a character list into its longest prefix of decimal digits
and the remainder. -/
def spanDigits : List Char → List Char × List Char
  | [] => ([], [])
  | c :: cs =>
      if c.isDigit then
        let r := spanDigits cs
        (c :: r.1, r.2)
      else ([], c :: cs)

/-- Parse an unsigned decimal mantissa (digits, optionally followed by a
dot and fraction digits) from the front of a character list, returning
the integer part value, the fraction part value, the number of fraction
digits, and the unconsumed remainder. -/
def parseMantissa (cs : List Char) : Option ((ℕ × ℕ × ℕ) × List Char) :=
  let s1 := spanDigits cs
  match s1.2 with
  | '.' :: r2 =>
      let s2 := spanDigits r2
      if s1.1.isEmpty && s2.1.isEmpty then none
      else some ((digitsVal s1.1, digitsVal s2.1, s2.1.length), s2.2)
  | _ =>
      if s1.1.isEmpty then none
      else some ((digitsVal s1.1, 0, 0), s1.2)

/-- Parse an optionally signed decimal mantissa from the front of a
character list.  The flag records a leading minus sign. -/
def parseSignedCore (cs : List Char) : Option ((Bool × ℕ × ℕ × ℕ) × List Char) :=
  match cs with
  | '-' :: r => (parseMantissa r).map (fun m => ((true, m.1), m.2))
  | '+' :: r => (parseMantissa r).map (fun m => ((false, m.1), m.2))
  | _ => (parseMantissa cs).map (fun m => ((false, m.1), m.2))

/-- Rational value denoted by a parsed sign/integer/fraction/scale tuple. -/
def decValue : Bool × ℕ × ℕ × ℕ → ℚ
  | (sg, ip, fp, k) => (if sg then (-1 : ℚ) else 1) * ((ip : ℚ) + (fp : ℚ) / 10 ^ k)

/-- Drop leading and trailing whitespace characters. -/
def trimChars (cs : List Char) : List Char :=
  ((cs.dropWhile Char.isWhitespace).reverse.dropWhile Char.isWhitespace).reverse

/-- The JS Number() coercion on strings, restricted to decimal literals:
whitespace is trimmed, an empty remainder yields 0, a fully consumed
signed decimal literal yields its value, and anything else yields the
not-a-number outcome, modeled as none. -/
def jsNumberOfString (s : String) : Option ℚ :=
  let t := trimChars s.toList
  if t.isEmpty then some 0
  else
    match parseSignedCore t with
    | some (m, []) => some (decValue m)
    | _ => none

/-- The JS Number() coercion on the modeled values: undefined is
not-a-number (none), null is 0, a number is itself, a string parses as a
decimal literal. -/
def jsNumber : JSVal → Option ℚ
  | JSVal.undef => none
  | JSVal.null => some 0
  | JSVal.num q => some q
  | JSVal.str s => jsNumberOfString s

/-- app.js toNumber: Number(x) when that is finite, otherwise null.
In the model the non-finite outcomes (NaN, Infinity) are already none,
so toNumber coincides with the Number() model. -/
def toNumber (x : JSVal) : Option ℚ := jsNumber x

/-- The JS parseFloat() on strings, restricted to decimal literals:
leading whitespace is skipped and the longest signed decimal prefix is
converted; no prefix yields the not-a-number outcome (none). -/
def parseFloatJS (s : String) : Option ℚ :=
  match parseSignedCore (s.toList.dropWhile Char.isWhitespace) with
  | some (m, _) => some (decValue m)
  | none => none

/-- calculator.js getNum / getVal and the URL parameter reads: the field
text when present is run through parseFloat with a fallback of 0 for the
not-a-number outcome; a missing element or parameter also reads as 0. -/
def parseFloatOr0 (v : Option String) : ℚ :=
  match v with
  | none => 0
  | some s =>
      match parseFloatJS s with
      | some q => q
      | none => 0

/-- app.js usiRating, V2.0 variant (src/app.js lines 88 to 96). -/
def usiRating (u : Option ℚ) : String :=
  match u with
  | none => "Unknown"
  | some u =>
      if u < 30 then "Comfortable"
      else if u < 35 then "Stretched"
      else if u < 40 then "High burden"
      else if u < 45 then "Severe burden"
      else if u < 55 then "Unaffordable"
      else "Extreme"

/-- app.js usiRating, V1.1 variant (src/app.js lines 332 to 340). -/
def usiRatingV11 (u : Option ℚ) : String :=
  match u with
  | none => "Unknown"
  | some usiNumber =>
      if usiNumber < 30 then "Comfortable"
      else if usiNumber < 35 then "Stretched"
      else if usiNumber < 40 then "High burden"
      else if usiNumber < 45 then "Severe burden"
      else if usiNumber < 55 then "Unaffordable"
      else "Extreme"

/-- usiRating, clean-stable variant (src/unnamed/part_000 lines 763 to 771). -/
def usiRatingClean (u : Option ℚ) : String :=
  match u with
  | none => "Unknown"
  | some u =>
      if u < 30 then "Comfortable"
      else if u < 35 then "Stretched"
      else if u < 40 then "High burden"
      else if u < 45 then "Severe burden"
      else if u < 55 then "Unaffordable"
      else "Extreme"

/-- usiRating, V1 variant (src/unnamed/part_001 lines 43 to 51). -/
def usiRatingV1 (u : Option ℚ) : String :=
  match u with
  | none => "Unknown"
  | some usi =>
      if usi < 30 then "Comfortable"
      else if usi < 35 then "Stretched"
      else if usi < 40 then "High burden"
      else if usi < 45 then "Severe burden"
      else if usi < 55 then "Unaffordable"
      else "Extreme"

/-- Multiplicity of the factor p in n, computed with explicit fuel so
that the definition is structurally recursive and kernel computable. -/
def factorCount (p : ℕ) : ℕ → ℕ → ℕ
  | 0, _ => 0
  | fuel + 1, n =>
      if 2 ≤ p ∧ n % p = 0 ∧ n / p ≠ 0 then factorCount p fuel (n / p) + 1 else 0

/-- Number of fraction digits in the canonical decimal rendering of a
rational whose reduced denominator divides a power of ten: the smallest
k with den dividing 10 to the k, computed as the larger of the
multiplicities of 2 and 5 in the denominator. -/
def fracLen (q : ℚ) : ℕ :=
  max (factorCount 2 64 q.den) (factorCount 5 64 q.den)

/-- Left-pad a string with zero characters up to length k. -/
def padZeros (s : String) (k : ℕ) : String :=
  String.mk (List.replicate (k - s.length) '0') ++ s

/-- Render a nonnegative decimal given as mantissa n with k fraction
digits, inserting the dot only when k is positive. -/
def decRepr (n k : ℕ) : String :=
  if k = 0 then Nat.repr n
  else Nat.repr (n / 10 ^ k) ++ "." ++ padZeros (Nat.repr (n % 10 ^ k)) k

/-- The JS String() rendering of a finite number, on the values this
repository prints: the canonical decimal form without trailing fraction
zeros.  This matches the shortest-round-trip printing JS applies to
numbers that originate from short decimal literals. -/
def jsNumToString (q : ℚ) : String :=
  if q < 0 then "-" ++ decRepr ((-q * 10 ^ fracLen (-q)).num.toNat) (fracLen (-q))
  else decRepr ((q * 10 ^ fracLen q).num.toNat) (fracLen q)

/-- The JS String() template rendering of a modeled value. -/
def jsValToString : JSVal → String
  | JSVal.undef => "undefined"
  | JSVal.null => "null"
  | JSVal.str s => s
  | JSVal.num q => jsNumToString q

/-- app.js keepDecimals (src/app.js lines 74 to 77): N/A for undefined,
null and empty text, otherwise String(x). -/
def keepDecimals (x : JSVal) : String :=
  if x = JSVal.undef ∨ x = JSVal.null ∨ x = JSVal.str "" then "N/A"
  else jsValToString x

/-- Embed the nullable number produced by toNumber back into a JS value,
as happens when such a variable is passed to keepDecimals. -/
def optToVal : Option ℚ → JSVal
  | none => JSVal.null
  | some q => JSVal.num q

/-- The USI score display of buildPopup, V2.0 variant (src/app.js lines
137 and 147): the raw property is first coerced through toNumber and the
resulting nullable number is passed to keepDecimals. -/
def usiDisplayV20 (p : JSRecord) (usiKey : Option String) : String :=
  keepDecimals (optToVal (match usiKey with
    | some k => toNumber (lookupJS p k)
    | none => none))

/-- app.js getRadius, V2.0 variant (src/app.js lines 108 to 113):
10 for null, otherwise 8 + (18 - 8) * ((u - 0) / (100 - 0)), unclamped. -/
def getRadius (u : Option ℚ) : ℚ :=
  match u with
  | none => 10
  | some u => 8 + (18 - 8) * ((u - 0) / (100 - 0))

/-- app.js getRadius, V1.1 variant (src/app.js lines 352 to 364):
6 for null, otherwise the score is clamped into the window from 25 to 60
and mapped linearly onto radii 6 to 14. -/
def getRadiusV11 (u : Option ℚ) : ℚ :=
  match u with
  | none => 6
  | some usiNumber =>
      let u := max 25 (min 60 usiNumber)
      6 + (u - 25) * (14 - 6) / (60 - 25)

/-- app.js pickFirstKey, V2.0 variant (src/app.js lines 126 to 131):
return the first candidate whose property read is not undefined. -/
def pickFirstKey (obj : JSRecord) : List String → Option String
  | [] => none
  | k :: ks =>
      if lookupJS obj k ≠ JSVal.undef then some k else pickFirstKey obj ks

/-- Candidate scan of pickFirstKey, V1.1 variant: the candidate must be
a present own key whose value is neither null nor empty text. -/
def pickFirstKeyGoV11 (p : JSRecord) : List String → Option String
  | [] => none
  | k :: ks =>
      match p.lookup k with
      | some v =>
          if v ≠ JSVal.null ∧ v ≠ JSVal.str "" then some k
          else pickFirstKeyGoV11 p ks
      | none => pickFirstKeyGoV11 p ks

/-- app.js pickFirstKey, V1.1 variant (src/app.js lines 301 to 309):
an absent record resolves to null at once, otherwise the candidates are
scanned in order. -/
def pickFirstKeyV11 (props : Option JSRecord) (cands : List String) : Option String :=
  match props with
  | none => none
  | some p => pickFirstKeyGoV11 p cands

/-- Decidable test matching the V1.1 candidate condition, used to state
the first-match characterization. -/
def keyOkV11 (p : JSRecord) (k : String) : Bool :=
  match p.lookup k with
  | some v => decide (v ≠ JSVal.null ∧ v ≠ JSVal.str "")
  | none => false

/-- The candidate test demanded by the claim wording: present as a key
with a value that is neither absent, empty text, nor the null missing
sentinel. -/
def keyOkClaim (p : JSRecord) (k : String) : Bool :=
  match p.lookup k with
  | some v =>
      decide (v ≠ JSVal.undef ∧ v ≠ JSVal.null ∧ v ≠ JSVal.str "")
  | none => false

/-- Field resolution as the claim words it: first candidate passing the
presence and value test, null when none does, absent record tolerated. -/
def resolveClaim (props : Option JSRecord) (cands : List String) : Option String :=
  match props with
  | none => none
  | some p => cands.find? (keyOkClaim p)

/-- JS Math.round: round half toward positive infinity. -/
def jsRound (q : ℚ) : ℤ := ⌊q + 1 / 2⌋

/-- calculator.js loadFromURL (src/calculator.js lines 17 to 34): read
income, housingPct and foodPct from the query parameters with fallback
0, bail out when income is falsy, otherwise populate the three editable
fields with Math.round of income and of the two percentage expansions. -/
def loadFromURL (incomeP housingP foodP : Option String) : Option (ℤ × ℤ × ℤ) :=
  let income := parseFloatOr0 incomeP
  let housingPct := parseFloatOr0 housingP
  let foodPct := parseFloatOr0 foodP
  if income = 0 then none
  else some (jsRound income,
             jsRound (income * (housingPct / 100)),
             jsRound (income * (foodPct / 100)))

/-- The breakdown computed by calculator.js calculate: income, total
expenses, and remaining income. -/
structure Breakdown where
  income : ℚ
  total : ℚ
  remaining : ℚ
deriving DecidableEq, Repr

/-- calculator.js calculate (src/calculator.js lines 47 to 81): read the
eight numeric fields with getNum (missing or unparseable reads as 0),
total the seven expense items, and subtract from income.  The eight
arguments are the field texts, none modeling a missing element. -/
def calculate (incomeS housingS foodS utilS transS carS clothS discS : Option String) :
    Breakdown :=
  let income := parseFloatOr0 incomeS
  let housing := parseFloatOr0 housingS
  let food := parseFloatOr0 foodS
  let utilities := parseFloatOr0 utilS
  let transport := parseFloatOr0 transS
  let car := parseFloatOr0 carS
  let clothing := parseFloatOr0 clothS
  let discretionary := parseFloatOr0 discS
  let total := housing + food + utilities + transport + car + clothing + discretionary
  { income := income, total := total, remaining := income - total }

/-- calculator.js updatePie data array (src/calculator.js lines 130 to
140): the seven expense slices unchanged and the remaining slice clamped
to Math.max(r, 0). -/
def updatePieData (h f u t c cl d r : ℚ) : List ℚ :=
  [h, f, u, t, c, cl, d, max r 0]

/-- Score extraction used by the render loop and the tally (src/app.js
lines 241 and 242): when a usi key was resolved the property is coerced
with toNumber, otherwise the score is null. -/
def featureScore (p : JSRecord) (usiKey : Option String) : Option ℚ :=
  match usiKey with
  | some k => toNumber (lookupJS p k)
  | none => none

/-- One increment of the counts object: bump the bucket of one label. -/
def bumpCount (c : String → ℕ) (lbl : String) : String → ℕ :=
  fun l => if l = lbl then c l + 1 else c l

/-- app.js category counts (src/app.js lines 229 to 244): start from the
all-zero counts object and bump the bucket usiRating assigns to each
feature score. -/
def tally (features : List JSRecord) (usiKey : Option String) : String → ℕ :=
  features.foldl (fun c f => bumpCount c (usiRating (featureScore f usiKey))) (fun _ => 0)

/-- The seven bucket labels the counts object is initialized with. -/
def tierLabels : List String :=
  ["Comfortable", "Stretched", "High burden", "Severe burden",
   "Unaffordable", "Extreme", "Unknown"]

/-- Popup title of buildPopup, V2.0 variant (src/app.js lines 138, 139
and 151): city is the property read with fallback literal Unknown, and a
comma plus country is appended when the country read is truthy.  A null
key reads property name null, as JS property access stringifies it. -/
def titleV20 (p : JSRecord) (cityKey countryKey : Option String) : String :=
  let cityV := lookupJS p (cityKey.getD "null")
  let city := if jsTruthy cityV then jsValToString cityV else "Unknown"
  let countryV := lookupJS p (countryKey.getD "null")
  let country := if jsTruthy countryV then ", " ++ jsValToString countryV else ""
  city ++ country

/-- Popup title of buildPopup, V1.1 variant (src/app.js lines 390 to 394
and 431): city falls back to the literal Unknown city, and the title line
joins city and country with a comma when the country value is truthy. -/
def titleV11 (p : JSRecord) (cityKey countryKey : Option String) : String :=
  let cityV := match cityKey with
    | some k => lookupJS p k
    | none => JSVal.null
  let city := if jsTruthy cityV then jsValToString cityV else "Unknown city"
  let countryV := match countryKey with
    | some k => lookupJS p k
    | none => JSVal.null
  if jsTruthy countryV then city ++ ", " ++ jsValToString countryV else city

/-- The value of a role when its key is resolved and the stored value is
present in the JS truthy sense; none otherwise. -/
def resolvedPresent (p : JSRecord) (k : Option String) : Option JSVal :=
  match k with
  | some key => if jsTruthy (lookupJS p key) then some (lookupJS p key) else none
  | none => none

/-- The title rule as the amended claim words it: the place name value
when resolved and present, else the literal Unknown city; when the
region value is also resolved and present it is appended after a comma. -/
def titleRule (p : JSRecord) (cityKey countryKey : Option String) : String :=
  match resolvedPresent p cityKey, resolvedPresent p countryKey with
  | some c, some r => jsValToString c ++ ", " ++ jsValToString r
  | some c, none => jsValToString c
  | none, some r => "Unknown city" ++ ", " ++ jsValToString r
  | none, none => "Unknown city"

/-! Evaluation lemmas: reduce the rational-valued helpers on concrete
inputs to kernel-computable natural number data. -/

lemma jsNumToString_eval (q : ℚ) (d n k : ℕ)
    (h0 : 0 ≤ q) (hd : q.den = d)
    (hk : max (factorCount 2 64 d) (factorCount 5 64 d) = k)
    (hn : q * 10 ^ k = (n : ℚ)) :
    jsNumToString q = decRepr n k := by
  have hfl : fracLen q = k := by rw [fracLen, hd, hk]
  rw [jsNumToString, if_neg (not_lt.mpr h0), hfl, hn]
  norm_num

lemma jsNumberOfString_eval (s : String) (m : Bool × ℕ × ℕ × ℕ)
    (h : parseSignedCore (trimChars s.toList) = some (m, [])) :
    jsNumberOfString s = some (decValue m) := by
  have hne : (trimChars s.toList).isEmpty = false := by
    cases htl : trimChars s.toList with
    | nil =>
        rw [htl, (by decide : parseSignedCore [] = none)] at h
        exact absurd h (by simp)
    | cons a t => rfl
  simp only [jsNumberOfString, hne, h]
  rfl

lemma parseFloatOr0_eval (s : String) (m : Bool × ℕ × ℕ × ℕ) (rest : List Char)
    (h : parseSignedCore (s.toList.dropWhile Char.isWhitespace) = some (m, rest)) :
    parseFloatOr0 (some s) = decValue m := by
  simp only [parseFloatOr0, parseFloatJS, h]

/-! Claim theorems. -/

/-- C10: the four usiRating duplicates (V2.0 and V1.1 in src/app.js, the
clean-stable variant in src/unnamed/part_000, and V1 in
src/unnamed/part_001) are extensionally equal on every input. -/
theorem usiRating_variants_agree :
    ∀ u : Option ℚ,
      usiRating u = usiRatingV11 u ∧
      usiRating u = usiRatingClean u ∧
      usiRating u = usiRatingV1 u :=
  fun _ => ⟨rfl, rfl, rfl⟩

/-- C1: usiRating is exhaustive with closed-open six-tier thresholds:
every score falls in exactly one tier, characterized by the intervals
below 30, 30 to 35, 35 to 40, 40 to 45, 45 to 55, and from 55 up,
and a null score yields Unknown. -/
theorem usiRating_tier_partition :
    ∀ u : ℚ,
      (usiRating (some u) = "Comfortable" ↔ u < 30) ∧
      (usiRating (some u) = "Stretched" ↔ 30 ≤ u ∧ u < 35) ∧
      (usiRating (some u) = "High burden" ↔ 35 ≤ u ∧ u < 40) ∧
      (usiRating (some u) = "Severe burden" ↔ 40 ≤ u ∧ u < 45) ∧
      (usiRating (some u) = "Unaffordable" ↔ 45 ≤ u ∧ u < 55) ∧
      (usiRating (some u) = "Extreme" ↔ 55 ≤ u) ∧
      usiRating none = "Unknown" := by
  intro u
  refine ⟨?_, ?_, ?_, ?_, ?_, ?_, rfl⟩ <;>
    · simp only [usiRating]
      split_ifs <;>
        first
          | exact iff_of_true rfl (by constructor <;> linarith)
          | exact iff_of_true rfl (by linarith)
          | exact iff_of_false (by decide)
              (by intro hc; obtain ⟨h1c, h2c⟩ := hc; linarith)
          | exact iff_of_false (by decide) (by intro hc; linarith)

/-- C1 witness: score 32 lands in the Stretched tier. -/
theorem usiRating_tier_partition_witness :
    usiRating (some 32) = "Stretched" :=
  (usiRating_tier_partition 32).2.1.mpr (by norm_num)

/-- C2: the code contradicts the claimed radius contract.  The V2.0
getRadius returns 10 for a null score and interpolates score / 100 onto
8 to 18 without clamping, so score 200 yields radius 28 (above the
documented maximum 18 of the V2.0 file header) and score 25 yields
10.5 rather than the claimed clamped minimum 8; the V1.1 variant clamps
into 25 to 60 but maps onto 6 to 14 with null mapping to 6. -/
theorem getRadius_code_divergence :
    getRadius none = 10 ∧
    getRadius (some 200) = 28 ∧
    getRadius (some 25) = 21 / 2 ∧
    getRadiusV11 none = 6 ∧
    getRadiusV11 (some 100) = 14 ∧
    getRadiusV11 (some 25) = 6 := by
  refine ⟨rfl, by norm_num [getRadius], by norm_num [getRadius], rfl, ?_, ?_⟩ <;>
    · simp only [getRadiusV11, max_def, min_def]
      norm_num

/-- Evaluation of the V2.0 score display on a record storing the score
under the key usi as a raw text value. -/
lemma usiDisplayV20_str_eval (s : String) (m : Bool × ℕ × ℕ × ℕ)
    (h : parseSignedCore (trimChars s.toList) = some (m, [])) :
    usiDisplayV20 [("usi", JSVal.str s)] (some "usi") =
      keepDecimals (JSVal.num (decValue m)) := by
  have hl : lookupJS [("usi", JSVal.str s)] "usi" = JSVal.str s := by
    simp [lookupJS, List.lookup]
  simp only [usiDisplayV20, hl, toNumber, jsNumber, jsNumberOfString_eval s m h, optToVal]

/-- keepDecimals applied to a plain number value reduces to the String()
rendering of that number. -/
lemma keepDecimals_num (q : ℚ) :
    keepDecimals (JSVal.num q) = jsNumToString q := by
  rw [keepDecimals, if_neg (by simp)]
  rfl

/-- C3 counterexample: the V2.0 score display is not verbatim.  The raw
stored score text 1.10 is first coerced to a number and prints back as
1.1, dropping the trailing decimal digit. -/
theorem usiDisplayV20_not_verbatim :
    usiDisplayV20 [("usi", JSVal.str "1.10")] (some "usi") = "1.1" ∧
    usiDisplayV20 [("usi", JSVal.str "1.10")] (some "usi") ≠ "1.10" := by
  have h1 : usiDisplayV20 [("usi", JSVal.str "1.10")] (some "usi") =
      keepDecimals (JSVal.num (decValue (false, 1, 10, 2))) :=
    usiDisplayV20_str_eval "1.10" (false, 1, 10, 2) (by decide)
  have h2 : decValue (false, 1, 10, 2) = 11 / 10 := by norm_num [decValue]
  have h3 : jsNumToString (11 / 10 : ℚ) = "1.1" := by
    rw [jsNumToString_eval (11 / 10) 10 11 1 (by norm_num) (by norm_num)
      (by decide) (by norm_num)]
    decide
  rw [h1, h2, keepDecimals_num, h3]
  exact ⟨rfl, by decide⟩

/-- C3 amended: keepDecimals maps absent, null and empty raw values to
N/A and is verbatim on every nonempty text value; the V2.0 score display
preserves the canonical decimal form of the stored score, as in the
specification example where the stored text 34.827193 is shown
unchanged, but normalizes non-canonical texts because the raw score is
parsed to a number before display. -/
theorem keepDecimals_display_spec :
    (∀ s : String, s ≠ "" → keepDecimals (JSVal.str s) = s) ∧
    keepDecimals JSVal.undef = "N/A" ∧
    keepDecimals JSVal.null = "N/A" ∧
    keepDecimals (JSVal.str "") = "N/A" ∧
    usiDisplayV20 [("usi", JSVal.str "34.827193")] (some "usi") = "34.827193" := by
  refine ⟨?_, rfl, rfl, rfl, ?_⟩
  · intro s hs
    rw [keepDecimals, if_neg (by simp [hs])]
    rfl
  · have h1 : usiDisplayV20 [("usi", JSVal.str "34.827193")] (some "usi") =
        keepDecimals (JSVal.num (decValue (false, 34, 827193, 6))) :=
      usiDisplayV20_str_eval "34.827193" (false, 34, 827193, 6) (by decide)
    have h2 : decValue (false, 34, 827193, 6) = 34827193 / 1000000 := by
      norm_num [decValue]
    have h3 : jsNumToString (34827193 / 1000000 : ℚ) = "34.827193" := by
      rw [jsNumToString_eval (34827193 / 1000000) 1000000 34827193 6 (by norm_num)
        (by norm_num) (by decide) (by norm_num)]
      decide
    rw [h1, h2, keepDecimals_num, h3]

/-- C3 witness: a concrete nonempty text value is kept verbatim. -/
theorem keepDecimals_display_spec_witness :
    keepDecimals (JSVal.str "34.8") = "34.8" :=
  keepDecimals_display_spec.1 "34.8" (by decide)

/-- C4 counterexample: the V2.0 pickFirstKey filters only absent
values, so a key holding the null missing-value sentinel is still
returned, while the claimed resolution rule rejects it. -/
theorem pickFirstKey_null_counterexample :
    pickFirstKey [("usi", JSVal.null)] ["usi"] = some "usi" ∧
    resolveClaim (some [("usi", JSVal.null)]) ["usi"] = none := by decide

/-- C4 amended: the V1.1 pickFirstKey tolerates an absent record and
otherwise returns the first candidate present as an own key whose value
is neither null nor empty text, none when no candidate matches; the
V2.0 variant only skips candidates whose property read is undefined. -/
theorem pickFirstKeyV11_first_match :
    (∀ cands : List String, pickFirstKeyV11 none cands = none) ∧
    (∀ (p : JSRecord) (cands : List String),
      pickFirstKeyV11 (some p) cands = cands.find? (keyOkV11 p)) := by
  refine ⟨fun cands => rfl, fun p cands => ?_⟩
  induction cands with
  | nil => rfl
  | cons k ks ih =>
      show pickFirstKeyGoV11 p (k :: ks) = List.find? (keyOkV11 p) (k :: ks)
      rw [List.find?]
      cases h : p.lookup k with
      | none =>
          have hko : keyOkV11 p k = false := by simp [keyOkV11, h]
          simp only [pickFirstKeyGoV11, h, hko]
          exact ih
      | some v =>
          by_cases hv : v ≠ JSVal.null ∧ v ≠ JSVal.str ""
          · have hko : keyOkV11 p k = true := by simp [keyOkV11, h, hv.1, hv.2]
            simp only [pickFirstKeyGoV11, h, hko, if_pos hv]
          · have hko : keyOkV11 p k = false := by
              simp only [keyOkV11, h, decide_eq_false_iff_not]
              exact hv
            simp only [pickFirstKeyGoV11, h, hko, if_neg hv]
            exact ih

/-- C5 counterexample: empty text does not normalize to null.  JS
Number coerces the empty string to 0, so toNumber returns 0 there. -/
theorem toNumber_empty_counterexample :
    toNumber (JSVal.str "") = some 0 ∧ toNumber (JSVal.str "") ≠ none := by decide

/-- C5 amended: toNumber is a pure total function returning the parsed
number whenever the input coerces to a finite number and null when the
input is absent (undefined) or coerces to NaN or Infinity (textual
garbage included); empty or whitespace-only text and the null value
coerce to 0 under JS Number, so they yield 0 rather than null. -/
theorem toNumber_spec :
    toNumber JSVal.undef = none ∧
    toNumber JSVal.null = some 0 ∧
    toNumber (JSVal.str "") = some 0 ∧
    toNumber (JSVal.str "   ") = some 0 ∧
    toNumber (JSVal.str "garbage") = none ∧
    toNumber (JSVal.str "Infinity") = none ∧
    (∀ q : ℚ, toNumber (JSVal.num q) = some q) ∧
    toNumber (JSVal.str "34.5") = some (69 / 2) := by
  refine ⟨rfl, rfl, by decide, by decide, by decide, by decide, fun q => rfl, ?_⟩
  show jsNumberOfString "34.5" = some (69 / 2)
  rw [jsNumberOfString_eval "34.5" (false, 34, 5, 1) (by decide)]
  norm_num [decValue]

/-- C6: round-trip between the compact percentage representation and
absolute line items: loadFromURL with income 5000, housingPct 30 and
foodPct 15 populates the editable fields with 5000, 1500 and 750, and
running calculate on those amounts with the remaining line items 0
yields total expenses 2250 and remaining 2750. -/
theorem expand_breakdown_roundtrip :
    loadFromURL (some "5000") (some "30") (some "15") = some (5000, 1500, 750) ∧
    calculate (some "5000") (some "1500") (some "750") (some "0") (some "0")
        (some "0") (some "0") (some "0") =
      { income := 5000, total := 2250, remaining := 2750 } := by
  have h5000 : parseFloatOr0 (some "5000") = (5000 : ℚ) := by
    rw [parseFloatOr0_eval "5000" (false, 5000, 0, 0) [] (by decide)]
    norm_num [decValue]
  have h30 : parseFloatOr0 (some "30") = (30 : ℚ) := by
    rw [parseFloatOr0_eval "30" (false, 30, 0, 0) [] (by decide)]
    norm_num [decValue]
  have h15 : parseFloatOr0 (some "15") = (15 : ℚ) := by
    rw [parseFloatOr0_eval "15" (false, 15, 0, 0) [] (by decide)]
    norm_num [decValue]
  have h1500 : parseFloatOr0 (some "1500") = (1500 : ℚ) := by
    rw [parseFloatOr0_eval "1500" (false, 1500, 0, 0) [] (by decide)]
    norm_num [decValue]
  have h750 : parseFloatOr0 (some "750") = (750 : ℚ) := by
    rw [parseFloatOr0_eval "750" (false, 750, 0, 0) [] (by decide)]
    norm_num [decValue]
  have h0 : parseFloatOr0 (some "0") = (0 : ℚ) := by
    rw [parseFloatOr0_eval "0" (false, 0, 0, 0) [] (by decide)]
    norm_num [decValue]
  constructor
  · simp only [loadFromURL, h5000, h30, h15]
    rw [if_neg (by norm_num)]
    have r1 : jsRound 5000 = 5000 := by norm_num [jsRound]
    have r2 : jsRound ((5000 : ℚ) * (30 / 100)) = 1500 := by norm_num [jsRound]
    have r3 : jsRound ((5000 : ℚ) * (15 / 100)) = 750 := by norm_num [jsRound]
    rw [r1, r2, r3]
  · simp only [calculate, h5000, h1500, h750, h0]
    rw [Breakdown.mk.injEq]
    norm_num

/-- C7: for every set of field texts the computed remaining equals
income minus the sum of the seven line items with missing or
unparseable inputs read as 0, the numeric remaining is never clamped,
and the chart-facing remaining slice is max of remaining and 0; in the
example with income 2000 and line items summing to 2500 the remaining
is minus 500 while the chart slice is 0. -/
theorem remaining_unclamped_spec :
    (∀ iS hS fS uS tS cS clS dS : Option String,
      (calculate iS hS fS uS tS cS clS dS).remaining =
        parseFloatOr0 iS -
          (parseFloatOr0 hS + parseFloatOr0 fS + parseFloatOr0 uS + parseFloatOr0 tS +
            parseFloatOr0 cS + parseFloatOr0 clS + parseFloatOr0 dS)) ∧
    parseFloatOr0 none = 0 ∧
    parseFloatOr0 (some "garbage") = 0 ∧
    (∀ h f u t c cl d r : ℚ, (updatePieData h f u t c cl d r).getLastD 0 = max r 0) ∧
    (calculate (some "2000") (some "2500") (some "0") (some "0") (some "0") (some "0")
        (some "0") (some "0")).remaining = -500 ∧
    (updatePieData 2500 0 0 0 0 0 0 (-500)).getLastD 0 = 0 := by
  have h2000 : parseFloatOr0 (some "2000") = (2000 : ℚ) := by
    rw [parseFloatOr0_eval "2000" (false, 2000, 0, 0) [] (by decide)]
    norm_num [decValue]
  have h2500 : parseFloatOr0 (some "2500") = (2500 : ℚ) := by
    rw [parseFloatOr0_eval "2500" (false, 2500, 0, 0) [] (by decide)]
    norm_num [decValue]
  have h0 : parseFloatOr0 (some "0") = (0 : ℚ) := by
    rw [parseFloatOr0_eval "0" (false, 0, 0, 0) [] (by decide)]
    norm_num [decValue]
  refine ⟨fun iS hS fS uS tS cS clS dS => rfl, rfl, by decide,
    fun h f u t c cl d r => rfl, ?_, ?_⟩
  · simp only [calculate, h2000, h2500, h0]
    norm_num
  · show max (-500 : ℚ) 0 = 0
    norm_num

/-- Every score classifies into one of the seven initialized buckets. -/
lemma usiRating_mem_tierLabels (u : Option ℚ) : usiRating u ∈ tierLabels := by
  cases u with
  | none => decide
  | some u =>
      simp only [usiRating]
      split_ifs <;> decide

/-- Each bucket label occurs exactly once in the initialized list. -/
lemma tierLabels_count (lbl : String) (h : lbl ∈ tierLabels) :
    tierLabels.count lbl = 1 := by
  fin_cases h <;> decide

/-- Bumping one bucket that occurs exactly once raises the total of all
buckets by exactly one. -/
lemma sum_map_bumpCount (L : List String) (c : String → ℕ) (lbl : String)
    (h : L.count lbl = 1) :
    (L.map (bumpCount c lbl)).sum = (L.map c).sum + 1 := by
  induction L generalizing c with
  | nil => simp at h
  | cons a t ih =>
      rw [List.count_cons] at h
      by_cases ha : lbl = a
      · have ht : t.count lbl = 0 := by
          rw [if_pos (by exact beq_iff_eq.mpr ha.symm)] at h
          omega
        have hnot : lbl ∉ t := List.count_eq_zero.mp ht
        have hmap : t.map (bumpCount c lbl) = t.map c := by
          apply List.map_congr_left
          intro x hx
          have hxne : x ≠ lbl := fun hxe => hnot (hxe ▸ hx)
          simp [bumpCount, hxne]
        have hb : bumpCount c lbl a = c a + 1 := by
          simp [bumpCount, ha.symm]
        simp only [List.map_cons, List.sum_cons, hmap, hb]
        omega
      · have ht : t.count lbl = 1 := by
          rw [if_neg (by simp only [beq_iff_eq]; exact Ne.symm ha)] at h
          omega
        have hb : bumpCount c lbl a = c a := by
          simp [bumpCount, Ne.symm ha]
        simp only [List.map_cons, List.sum_cons, hb, ih c ht]
        omega

/-- Folding the tally over a feature list raises the bucket total by
the number of features, whatever the starting counts. -/
lemma tally_fold_sum (k : Option String) (fs : List JSRecord) :
    ∀ c : String → ℕ,
      (tierLabels.map
        (fs.foldl (fun c f => bumpCount c (usiRating (featureScore f k))) c)).sum
        = (tierLabels.map c).sum + fs.length := by
  induction fs with
  | nil => intro c; simp
  | cons f t ih =>
      intro c
      rw [List.foldl_cons, ih,
        sum_map_bumpCount tierLabels c _
          (tierLabels_count _ (usiRating_mem_tierLabels _)),
        List.length_cons]
      omega

/-- C8: the tally starts every known tier including Unknown at zero and
bumps exactly one bucket per record: the empty collection yields all
zeros, the bucket totals always add up to the number of records, and the
three-record example with scores 10, 40 and a missing score counts one
Comfortable, one Severe burden, one Unknown and zero elsewhere. -/
theorem tally_spec :
    (∀ (k : Option String) (lbl : String), tally [] k lbl = 0) ∧
    (∀ (features : List JSRecord) (k : Option String),
      (tierLabels.map (tally features k)).sum = features.length) ∧
    (tally [[("usi", JSVal.num 10)], [("usi", JSVal.num 40)], []] (some "usi")
        "Comfortable" = 1 ∧
     tally [[("usi", JSVal.num 10)], [("usi", JSVal.num 40)], []] (some "usi")
        "Severe burden" = 1 ∧
     tally [[("usi", JSVal.num 10)], [("usi", JSVal.num 40)], []] (some "usi")
        "Unknown" = 1 ∧
     tally [[("usi", JSVal.num 10)], [("usi", JSVal.num 40)], []] (some "usi")
        "Stretched" = 0 ∧
     tally [[("usi", JSVal.num 10)], [("usi", JSVal.num 40)], []] (some "usi")
        "High burden" = 0 ∧
     tally [[("usi", JSVal.num 10)], [("usi", JSVal.num 40)], []] (some "usi")
        "Unaffordable" = 0 ∧
     tally [[("usi", JSVal.num 10)], [("usi", JSVal.num 40)], []] (some "usi")
        "Extreme" = 0) := by
  have s1 : usiRating (featureScore [("usi", JSVal.num 10)] (some "usi")) =
      "Comfortable" := by
    have : featureScore [("usi", JSVal.num 10)] (some "usi") = some 10 := by
      simp [featureScore, toNumber, jsNumber, lookupJS, List.lookup]
    rw [this]
    norm_num [usiRating]
  have s2 : usiRating (featureScore [("usi", JSVal.num 40)] (some "usi")) =
      "Severe burden" := by
    have : featureScore [("usi", JSVal.num 40)] (some "usi") = some 40 := by
      simp [featureScore, toNumber, jsNumber, lookupJS, List.lookup]
    rw [this]
    norm_num [usiRating]
  have s3 : usiRating (featureScore ([] : JSRecord) (some "usi")) = "Unknown" := rfl
  refine ⟨fun k lbl => rfl, ?_, ?_⟩
  · intro features k
    have := tally_fold_sum k features (fun _ => 0)
    simpa [tally] using this
  · refine ⟨?_, ?_, ?_, ?_, ?_, ?_, ?_⟩ <;>
      · simp only [tally, List.foldl_cons, List.foldl_nil, s1, s2, s3]
        decide

/-- C9 counterexample: the V2.0 buildPopup title falls back to the
literal Unknown, not to the claimed literal Unknown city, as the empty
record shows. -/
theorem titleV20_unknown_counterexample :
    titleV20 [] none none = "Unknown" ∧
    titleV20 [] none none ≠ "Unknown city" := by decide

/-- C9 amended: in the V1.1 buildPopup the title is the placeName value
when that role is resolved and the value is present, otherwise the
literal Unknown city, and when the regionName value is also resolved
and present it is appended after a comma and a space; the V2.0 variant
behaves the same way except that its fallback literal is Unknown. -/
theorem titleV11_matches_rule :
    ∀ (p : JSRecord) (ck rk : Option String), titleV11 p ck rk = titleRule p ck rk := by
  intro p ck rk
  cases ck with
  | none =>
      cases rk with
      | none => rfl
      | some rkey =>
          simp only [titleV11, titleRule, resolvedPresent]
          cases hr : jsTruthy (lookupJS p rkey) <;> simp [hr, jsTruthy]
  | some ckey =>
      cases rk with
      | none =>
          simp only [titleV11, titleRule, resolvedPresent]
          cases hc : jsTruthy (lookupJS p ckey) <;> simp [hc, jsTruthy]
      | some rkey =>
          simp only [titleV11, titleRule, resolvedPresent]
          cases hc : jsTruthy (lookupJS p ckey) <;>
            cases hr : jsTruthy (lookupJS p rkey) <;> simp [hc, hr, jsTruthy]
